import Mathlib

/-!
Shallow embedding of the linkedin-post-factory repository
(src/api/main.py and src/api/services/media_generator.py).

Python strings are modelled as `List Char`; Python integers as `Nat`;
Python floats in the voice-score computation as `Rat` (exact arithmetic);
fallible external calls (image generation, storage upload, the LLM) as
`Option`/`Except`-valued oracles that the handler functions receive as
parameters.  Every definition is translated from the source code.
-/

/-- Whitespace set of Python `str.strip()` / `str.split()` / the regex
class backslash-s restricted to ASCII: space, tab, newline, carriage
return, vertical tab, form feed. -/
def pyIsSpace (c : Char) : Bool :=
  c == ' ' || c == '\t' || c == '\n' || c == '\r' || c == '\x0B' || c == '\x0C'

/-- Python `str.strip()`: remove leading and trailing whitespace. -/
def pyStrip (s : List Char) : List Char :=
  ((s.dropWhile pyIsSpace).reverse.dropWhile pyIsSpace).reverse

/-- Python `str.lower()` (ASCII). -/
def pyLower (s : List Char) : List Char := s.map Char.toLower

/-- Python `str.upper()` (ASCII). -/
def pyUpper (s : List Char) : List Char := s.map Char.toUpper

/-- Helper for `pySplitWs`: accumulates the current word reversed. -/
def pySplitWsAux : List Char → List Char → List (List Char)
  | [], acc => if acc.isEmpty then [] else [acc.reverse]
  | c :: cs, acc =>
    if pyIsSpace c then
      if acc.isEmpty then pySplitWsAux cs [] else acc.reverse :: pySplitWsAux cs []
    else pySplitWsAux cs (c :: acc)

/-- Python `str.split()` with no argument: split on whitespace runs,
discarding empty pieces. -/
def pySplitWs (s : List Char) : List (List Char) := pySplitWsAux s []

/-- Helper for `pySplitChar`. -/
def pySplitCharAux (sep : Char) : List Char → List Char → List (List Char)
  | [], acc => [acc.reverse]
  | c :: cs, acc =>
    if c == sep then acc.reverse :: pySplitCharAux sep cs []
    else pySplitCharAux sep cs (c :: acc)

/-- Python `str.split(sep)` for a single-character separator: keeps
empty pieces, always returns at least one piece. -/
def pySplitChar (sep : Char) (s : List Char) : List (List Char) := pySplitCharAux sep s []

/-- Python `content.replace(chr(10), ". ")` from media_generator.py line 740. -/
def pyReplaceNl (s : List Char) : List Char :=
  (s.map (fun c => if c == '\n' then ['.', ' '] else [c])).flatten

/-- media_generator.py line 727:
`content.replace(star,being-empty).replace(hash,empty).replace(underscore,empty)` —
remove every asterisk, hash sign and underscore. -/
def removeMd (s : List Char) : List Char :=
  s.filter (fun c => !(c == '*' || c == '#' || c == '_'))

/-- Python `" ".join(words)`. -/
def joinSp (ws : List (List Char)) : List Char := List.intercalate [' '] ws

/-!
The regex used at media_generator.py lines 583/631/724:
a literal open parenthesis, `Visual:` case-insensitively, optional
whitespace, at least one non-close-parenthesis character, then a close
parenthesis.  Since the whitespace class is contained in the
non-close-parenthesis class, the pattern is, as a language, exactly
"(visual:" (case-insensitive) followed by a nonempty run of
non-close-parenthesis characters and a close parenthesis, and greedy
matching takes that run maximal, i.e. up to the first close parenthesis.
-/

/-- Try to match the Visual directive at the head of `s`.  On success
returns the captured inner text (group 1 up to stripping, i.e. the full
nonempty run after the colon) and the remainder after the closing
parenthesis. -/
def matchVisual (s : List Char) : Option (List Char × List Char) :=
  if (s.take 8).map Char.toLower = "(visual:".toList then
    let rest := s.drop 8
    let inner := rest.takeWhile (fun c => c != ')')
    match rest.dropWhile (fun c => c != ')') with
    | ')' :: tail => if inner.isEmpty then none else some (inner, tail)
    | _ => none
  else none

/-- Fuel-indexed leftmost-match removal of Visual directives.  The fuel
only bounds recursion depth: each step consumes at least one character
while spending exactly one unit of fuel, so with initial fuel equal to
the length of the input the fuel never runs out and the function
implements `re.sub` of the pattern with the empty string. -/
def stripVisualFuel : Nat → List Char → List Char
  | 0, s => s
  | _ + 1, [] => []
  | n + 1, c :: cs =>
    match matchVisual (c :: cs) with
    | some (_, tail) => stripVisualFuel n tail
    | none => c :: stripVisualFuel n cs

/-- `re.sub` of the Visual-directive pattern with the empty string
(media_generator.py lines 583 and 724). -/
def stripVisual (s : List Char) : List Char := stripVisualFuel s.length s

/-- `re.search` of the Visual-directive pattern (media_generator.py
line 631): the captured group of the leftmost match, if any. -/
def findVisual : List Char → Option (List Char)
  | [] => none
  | c :: cs =>
    match matchVisual (c :: cs) with
    | some (inner, _) => some inner
    | none => findVisual cs

/-!
Carousel renderer (media_generator.py, generate_carousel_pdf, lines
536-803).  A page is modelled by the drawing-relevant data the claims
are about: the page-counter text, cover flag, rendered title with its
font size and drawn lines, the image-generation prompt text, the placed
image (or failure placeholder) geometry, the rendered bullet lines and
their vertical spacing.
-/

/-- Title font size table, media_generator.py lines 600-621, applied to
the (possibly uppercased) slide title. -/
def titleFontSize (t : List Char) : Nat :=
  if t.length > 50 then 18
  else if t.length > 35 then 22
  else if t.length > 25 then 26
  else 32

/-- Drawn title lines: two halves of the word list for titles longer
than 50 characters, otherwise the single line, lines 601-621. -/
def titleLinesOf (t : List Char) : List (List Char) :=
  if t.length > 50 then
    let ws := pySplitWs t
    [joinSp (ws.take (ws.length / 2)), joinSp (ws.drop (ws.length / 2))]
  else [t]

/-- Word-wrap loop of lines 750-761: accumulate words while the length
check passes, flush the stripped accumulator otherwise, never breaking
a word.  The accumulator always carries a trailing space. -/
def wrapWords : List (List Char) → List Char → List (List Char)
  | [], cur => if (pyStrip cur).isEmpty then [] else [pyStrip cur]
  | w :: ws, cur =>
    if cur.length + w.length + 1 ≤ 45 then wrapWords ws (cur ++ w ++ [' '])
    else if cur.isEmpty then wrapWords ws (w ++ [' '])
    else pyStrip cur :: wrapWords ws (w ++ [' '])

/-- Lines contributed by one raw point, lines 748-764: wrap when longer
than 45 characters, else keep as a single line. -/
def bulletLinesOf (p : List Char) : List (List Char) :=
  if p.length > 45 then wrapWords (pySplitWs p) [] else [p]

/-- Sentence splitting of line 740: replace newlines by a period and a
space, split on periods, strip each piece, drop empty pieces. -/
def rawPoints (content : List Char) : List (List Char) :=
  ((pySplitChar '.' (pyReplaceNl content)).map pyStrip).filter (fun p => !p.isEmpty)

/-- Body-text cleaning of lines 721-732 applied to the stripped raw
content: strip the Visual directive, remove markdown symbols, and zero
the result when empty or equal (case-insensitively) to the slide
title. -/
def cleanBody (slideTitle raw : List Char) : List Char :=
  let c1 := pyStrip (stripVisual raw)
  let c2 := pyStrip (removeMd c1)
  if c2.isEmpty || pyLower c2 == pyLower slideTitle then [] else c2

/-- Bullet construction of lines 743-764: first six raw points, points
equal to the title skipped, each remaining point contributing its
wrapped lines. -/
def bulletPoints (slideTitle body : List Char) : List (List Char) :=
  (((rawPoints body).take 6).filter
    (fun p => !(pyLower p == pyLower slideTitle))).flatMap bulletLinesOf

/-- Rendered bullet lines, lines 780-788: at most twelve lines, each
drawn stripped. -/
def renderedBullets (slideTitle body : List Char) : List (List Char) :=
  ((bulletPoints slideTitle body).take 12).map pyStrip

/-- Outcome of the image area of a slide: a placed image with its
geometry, or the failure placeholder rectangle with its caption
(lines 702 and 709-714). -/
inductive ImageResult where
  | placed (x y w h : Nat)
  | failed (x y w h : Nat) (caption : List Char)
deriving DecidableEq, Repr

/-- Aspect-preserving fit of a w-by-h image into the 500-by-300 box,
lines 669-682.  The float ratio comparison `w / h > 500 / 300` is
modelled exactly as `300 * w > 500 * h`, and `int(...)` of the positive
float quotients as natural-number division. -/
def fitImage (w h : Nat) : Nat × Nat :=
  if 300 * w > 500 * h then (500, 500 * h / w) else (300 * w / h, 300)

/-- Image area of a page given the oracle result for this slide:
`none` models the generator raising or returning no bytes, in which
case the except-branch of lines 709-714 draws the placeholder. -/
def imageResultOf (isCover : Bool) (gen : Option (Nat × Nat)) : ImageResult :=
  match gen with
  | some (w, h) =>
    let nw := (fitImage w h).1
    let nh := (fitImage w h).2
    let x := 50 + (500 - nw) / 2
    let y := if isCover then 750 - 480 + (300 - nh) / 2 else 750 - 380 + (300 - nh) / 2
    .placed x y nw nh
  | none => .failed 50 (750 - 380) 500 300 "[Image generation failed]".toList

/-- Image-prompt derivation of lines 627-652, taking the stripped raw
content and the (possibly uppercased) slide title. -/
def imagePromptText (contentText slideTitle : List Char) (idx : Nat) : List Char :=
  match findVisual contentText with
  | some inner => pyStrip inner
  | none =>
    if !contentText.isEmpty && contentText.length > 10 then
      ((pySplitChar '.' contentText).headD []).take 100
    else if idx == 0 then
      "Professional corporate background related to ".toList ++ slideTitle
    else
      "Professional business concept for ".toList ++ slideTitle

/-- One slide record: a dictionary possibly lacking the title or
content key (`slide.get` with defaults, lines 580-581). -/
structure Slide where
  title? : Option (List Char)
  content? : Option (List Char)
deriving DecidableEq, Repr

/-- `slide.get` of the title with its default, line 580. -/
def slideTitleOf (s : Slide) (idx : Nat) : List Char :=
  s.title?.getD ("Slide ".toList ++ (Nat.repr (idx + 1)).toList)

/-- Page-counter text of line 577. -/
def counterText (idx n : Nat) : List Char :=
  (Nat.repr (idx + 1)).toList ++ ['/'] ++ (Nat.repr n).toList

/-- Drawing-relevant content of one rendered PDF page. -/
structure RenderedPage where
  counter : List Char
  isCover : Bool
  title : List Char
  titleSize : Nat
  titleLines : List (List Char)
  prompt : List Char
  image : ImageResult
  bullets : List (List Char)
  spacing : Nat
deriving DecidableEq, Repr

/-- Vertical space left for bullets, line 772:
`text_start_y - 80` with `text_start_y = page_height - 420`. -/
def availableHeight : Nat := 750 - 420 - 80

/-- Stripped raw content of a slide, line 581 and line 627 and line 721. -/
def rawContentOf (s : Slide) : List Char := pyStrip (s.content?.getD [])

/-- Cover-slide test of lines 582-584. -/
def isCoverSlide (s : Slide) (idx : Nat) : Bool :=
  (pyStrip (stripVisual (rawContentOf s))).isEmpty || idx == 0

/-- The slide title as rendered, after the cover-slide uppercasing of
lines 587-588. -/
def renderedTitle (s : Slide) (idx : Nat) : List Char :=
  if isCoverSlide s idx then pyUpper (slideTitleOf s idx) else slideTitleOf s idx

/-- Rendered bullet lines of a slide. -/
def pageBullets (s : Slide) (idx : Nat) : List (List Char) :=
  renderedBullets (renderedTitle s idx) (cleanBody (renderedTitle s idx) (rawContentOf s))

/-- Bullet line spacing of line 774. -/
def pageSpacing (s : Slide) (idx : Nat) : Nat :=
  if (pageBullets s idx).length > 0 then
    min 32 (availableHeight / max (pageBullets s idx).length 1)
  else 32

/-- Rendering of one slide (one iteration of the loop at line 565).
`gen` is the image-generation oracle outcome for this slide: the
dimensions of the decoded image on success, `none` when the generator
raised or produced no usable image. -/
def renderPage (gen : Option (Nat × Nat)) (n idx : Nat) (s : Slide) : RenderedPage :=
  { counter := counterText idx n
    isCover := isCoverSlide s idx
    title := renderedTitle s idx
    titleSize := titleFontSize (renderedTitle s idx)
    titleLines := titleLinesOf (renderedTitle s idx)
    prompt := imagePromptText (rawContentOf s) (renderedTitle s idx) idx
    image := imageResultOf (isCoverSlide s idx) gen
    bullets := pageBullets s idx
    spacing := pageSpacing s idx }

/-- The page loop, carrying the running slide index. -/
def renderPages (gen : Nat → Option (Nat × Nat)) (n : Nat) : Nat → List Slide → List RenderedPage
  | _, [] => []
  | idx, s :: rest => renderPage (gen idx) n idx s :: renderPages gen n (idx + 1) rest

/-- The whole document: one page per slide, in input order
(media_generator.py lines 565-803). -/
def generate_carousel_pdf (gen : Nat → Option (Nat × Nat)) (slides : List Slide) :
    List RenderedPage :=
  renderPages gen slides.length 0 slides

/-!
HTTP layer (src/api/main.py).  A Python exception is either a FastAPI
`HTTPException` (status code and detail) or any other exception with a
message; `str(e)` of an `HTTPException` is, per its base class,
the status code, a colon and a space, and the detail.
-/

/-- Python exception as seen by the broad `except Exception` handlers. -/
inductive PyExc where
  | http (code : Nat) (detail : List Char)
  | other (msg : List Char)
deriving DecidableEq, Repr

/-- Python `str(e)`. -/
def excStr : PyExc → List Char
  | .http c d => (Nat.repr c).toList ++ ": ".toList ++ d
  | .other m => m

/-- Request fields of the generate_post handler that its try-block
checks read (main.py lines 66-73 and 169-197 and 444-448). -/
structure PostReq where
  provider : List Char
  postType : List Char
  hasNews : Bool
deriving DecidableEq, Repr

/-- Body of the try-block of generate_post (main.py lines 168-448):
the provider check, the GOOGLE_API_KEY check, the news_article check,
then the rest of the body (LLM call, parsing, carousel generation),
modelled by the oracle `rest`, whose error case is any exception the
remaining body raises. -/
def generate_post_body (key : Bool) (req : PostReq) (rest : Except PyExc α) :
    Except PyExc α :=
  if req.provider = "gemini".toList then
    if !key then
      .error (.http 400 "GOOGLE_API_KEY not configured. Please add it to your .env file".toList)
    else if req.postType = "trending_news".toList && !req.hasNews then
      .error (.http 400 "news_article is required for trending_news post type".toList)
    else rest
  else
    .error (.http 400 ("Provider '".toList ++ req.provider ++
      "' not supported. Currently only 'gemini' is configured.".toList))

/-- The generate_post handler (main.py lines 164-451): the whole body
is wrapped in `except Exception`, which also catches the
HTTPExceptions raised inside the body and re-raises a 500 whose detail
interpolates `str(e)`. -/
def generate_post (key : Bool) (req : PostReq) (rest : Except PyExc α) :
    Except PyExc α :=
  match generate_post_body key req rest with
  | .ok r => .ok r
  | .error e => .error (.http 500 ("Error generating post: ".toList ++ excStr e))

/-- The search_news handler (main.py lines 478-497): the body, modelled
by its oracle, wrapped in the same broad catch. -/
def search_news (body : Except PyExc α) : Except PyExc α :=
  match body with
  | .ok r => .ok r
  | .error e => .error (.http 500 ("News search failed: ".toList ++ excStr e))

/-- The generate_carousel handler (main.py lines 725-874): the body,
modelled by its oracle, wrapped in the same broad catch. -/
def generate_carousel (body : Except PyExc α) : Except PyExc α :=
  match body with
  | .ok r => .ok r
  | .error e => .error (.http 500 ("Error generating carousel: ".toList ++ excStr e))

/-!
Media endpoints: storage-or-data-URI response URL (main.py lines 16-18
and the shared pattern of lines 600-629, 695-722 and the other media
handlers).
-/

/-- Base64 alphabet. -/
def b64Alphabet : List Char :=
  "ABCDEFGHIJKLMNOPQRSTUVWXYZabcdefghijklmnopqrstuvwxyz0123456789+/".toList

/-- Character for one 6-bit group. -/
def b64Char (n : Nat) : Char := b64Alphabet.getD n 'A'

/-- Standard padded base64 of a byte list (`base64.b64encode`).  Bytes
are taken modulo 256. -/
def base64Encode : List Nat → List Char
  | [] => []
  | [a] =>
    let a := a % 256
    [b64Char (a / 4), b64Char (a % 4 * 16), '=', '=']
  | [a, b] =>
    let a := a % 256
    let b := b % 256
    [b64Char (a / 4), b64Char (a % 4 * 16 + b / 16), b64Char (b % 16 * 4), '=']
  | a :: b :: c :: rest =>
    let a := a % 256
    let b := b % 256
    let c := c % 256
    b64Char (a / 4) :: b64Char (a % 4 * 16 + b / 16) ::
      b64Char (b % 16 * 4 + c / 64) :: b64Char (c % 64) :: base64Encode rest

/-- main.py lines 16-18: `to_data_uri`. -/
def to_data_uri (data : List Nat) (mime : List Char) : List Char :=
  "data:".toList ++ mime ++ ";base64,".toList ++ base64Encode data

/-- Response URL of a media endpoint (pattern of main.py lines
611-624 etc.): try the storage upload only when `save_to_storage` is
set, the storage service is configured and a `post_id` was given; a
failed upload is caught and leaves the URL unset; a falsy URL
(`if not url`) falls back to the data URI of the generated bytes.
`upload` is the oracle for `storage_service.upload_media`. -/
def mediaResponseUrl (saveToStorage storageConfigured : Bool)
    (postId : Option (List Char)) (upload : Except PyExc (List Char))
    (data : List Nat) (mime : List Char) : List Char :=
  let url : Option (List Char) :=
    if saveToStorage && storageConfigured && postId.isSome then
      match upload with
      | .ok u => some u
      | .error _ => none
    else none
  match url with
  | some u => if u.isEmpty then to_data_uri data mime else u
  | none => to_data_uri data mime

/-- main.py line 733: `language in ["english", "both"]`. -/
def carouselLangEnglish (language : List Char) : Bool :=
  language == "english".toList || language == "both".toList

/-- main.py line 734: `language in ["spanish", "both"]`. -/
def carouselLangSpanish (language : List Char) : Bool :=
  language == "spanish".toList || language == "both".toList

/-- URL data flow of the generate_carousel handler (main.py lines
725-874), restricted to the `success` and `url` fields of the
response.  `englishPdf` is the oracle for the English-branch PDF
generation (lines 741-767): an exception there propagates to the
handler-level catch and becomes a 500.  `spanishBody` is the oracle
for the Spanish branch up to the Spanish PDF bytes (translation, JSON
parsing, PDF generation and local save, lines 786-838): that branch is
wrapped in its own try whose handler (lines 850-854) swallows the
exception, leaving `url_es` unset — with this source the branch in
fact always raises, because the call at lines 813-817 passes a
`first_slide_image_url` argument that `generate_carousel_pdf`
(media_generator.py lines 536-541) does not accept.  `uploadEn` and
`uploadEs` are the storage-upload oracles of lines 770-777 and
840-848; the upload-or-data-URI logic is the shared
`mediaResponseUrl` pattern.  For `language = "spanish"` the final
`url` is `url_es` (lines 857-858), and the handler returns
`success: True` with whatever `url` holds (line 862-871). -/
def generate_carousel_media (language : List Char) (save cfg : Bool)
    (pid : Option (List Char)) (englishPdf : Except PyExc (List Nat))
    (uploadEn : Except PyExc (List Char)) (spanishBody : Except PyExc (List Nat))
    (uploadEs : Except PyExc (List Char)) : Except PyExc (Bool × Option (List Char)) :=
  let en : Except PyExc (Option (List Char)) :=
    if carouselLangEnglish language then
      match englishPdf with
      | .error e => .error e
      | .ok bytes =>
        .ok (some (mediaResponseUrl save cfg pid uploadEn bytes "application/pdf".toList))
    else .ok none
  match en with
  | .error e => .error (.http 500 ("Error generating carousel: ".toList ++ excStr e))
  | .ok url =>
    let urlEs : Option (List Char) :=
      if carouselLangSpanish language then
        match spanishBody with
        | .error _ => none
        | .ok bytesEs =>
          some (mediaResponseUrl save cfg pid uploadEs bytesEs "application/pdf".toList)
      else none
    .ok (true, if language == "spanish".toList then urlEs else url)

/-!
Voice score (main.py lines 330-331 and 437):
`voice_score = min(95.0, 70.0 + (len(final_content) / 20))` and the
response carries `round(voice_score, 1)`.  Floats are modelled as exact
rationals and Python `round(x, 1)` as rounding `10 * x` to the nearest
integer. -/

/-- Rounding to the nearest integer, ties to even: the rounding Python
`round` performs on exact values (binary-float representation error is
abstracted away by the exact-rational model). -/
def roundHalfEven (q : ℚ) : ℤ :=
  if q - (Rat.floor q : ℚ) < 1 / 2 then Rat.floor q
  else if 1 / 2 < q - (Rat.floor q : ℚ) then Rat.floor q + 1
  else if Rat.floor q % 2 = 0 then Rat.floor q else Rat.floor q + 1

/-- Python `round(x, 1)`. -/
def pyRound1 (q : ℚ) : ℚ := (roundHalfEven (q * 10) : ℚ) / 10

/-- main.py line 331. -/
def voice_score_raw (content : List Char) : ℚ :=
  min 95 (70 + (content.length : ℚ) / 20)

/-- The voice score as returned in the response, main.py line 437. -/
def voice_score (content : List Char) : ℚ := pyRound1 (voice_score_raw content)

/-!
Helper lemmas.
-/

theorem ratFloor_eq_intFloor (q : ℚ) : Rat.floor q = ⌊q⌋ := by
  rw [Rat.floor_def' q, Rat.floor_def]

example : voice_score "".toList = 70 := by
  simp only [voice_score, voice_score_raw, pyRound1, roundHalfEven, ratFloor_eq_intFloor]
  norm_num

example : voice_score "hello".toList = 70.2 := by
  simp only [voice_score, voice_score_raw, pyRound1, roundHalfEven, ratFloor_eq_intFloor]
  norm_num [Int.floor_eq_iff]

example :
    mediaResponseUrl true true (some "p".toList) (.error (.other "boom".toList)) [1, 2]
      "image/png".toList = "data:image/png;base64,AQI=".toList := by decide

example : pyStrip "  a b ".toList = "a b".toList := by decide
example : pySplitWs "  foo  bar ".toList = ["foo".toList, "bar".toList] := by decide
example : pySplitChar '.' "a.b..".toList = ["a".toList, "b".toList, [], []] := by decide
example : stripVisual "x (Visual: chart) y".toList = "x  y".toList := by decide
example : stripVisual "(visual:)".toList = "(visual:)".toList := by decide
example : findVisual "a (VISUAL:  big idea) b".toList = some "  big idea".toList := by decide

example :
    (generate_carousel_pdf (fun _ => none)
      [Slide.mk (some "Hi".toList) (some "One. Two.".toList)]).length = 1 := by decide
example :
    (renderPage none 2 1 (Slide.mk (some "Hi".toList) (some "One. Two.".toList))).bullets =
      ["One".toList, "Two".toList] := by decide
example :
    (renderPage none 2 1 (Slide.mk (some "Hi".toList) (some "One. Two.".toList))).spacing =
      min 32 (250 / 2) := by decide

/-- A line contains no whitespace character. -/
def noWs (l : List Char) : Bool := l.all (fun c => !pyIsSpace c)

/-- Invariant of a rendered bullet line: at most 45 characters, or a
single unbroken word. -/
def lineOk (l : List Char) : Prop := l.length ≤ 45 ∨ noWs l = true

theorem pyStrip_sublist (s : List Char) : List.Sublist (pyStrip s) s := by
  have h1 : List.Sublist (s.dropWhile pyIsSpace) s := List.dropWhile_sublist pyIsSpace
  have h2 : List.Sublist ((s.dropWhile pyIsSpace).reverse.dropWhile pyIsSpace)
      (s.dropWhile pyIsSpace).reverse := List.dropWhile_sublist pyIsSpace
  have h3 := h2.reverse
  rw [List.reverse_reverse] at h3
  exact h3.trans h1

theorem pyStrip_length_le (s : List Char) : (pyStrip s).length ≤ s.length :=
  (pyStrip_sublist s).length_le

theorem noWs_of_sublist {l m : List Char} (h : List.Sublist l m) (hm : noWs m = true) :
    noWs l = true := by
  simp only [noWs, List.all_eq_true] at hm ⊢
  intro c hc
  exact hm c (h.subset hc)

theorem lineOk_of_sublist {l m : List Char} (h : List.Sublist l m) (hm : lineOk m) :
    lineOk l := by
  rcases hm with hm | hm
  · exact Or.inl (le_trans h.length_le hm)
  · exact Or.inr (noWs_of_sublist h hm)

theorem pySplitWsAux_noWs :
    ∀ (s acc : List Char), noWs acc = true → ∀ w ∈ pySplitWsAux s acc, noWs w = true := by
  intro s
  induction s with
  | nil =>
    intro acc hacc w hw
    simp only [pySplitWsAux] at hw
    split at hw
    · simp at hw
    · simp only [List.mem_singleton] at hw
      subst hw
      simpa [noWs] using hacc
  | cons c cs ih =>
    intro acc hacc w hw
    simp only [pySplitWsAux] at hw
    split at hw
    · split at hw
      · exact ih [] rfl w hw
      · rcases List.mem_cons.mp hw with rfl | hw2
        · simpa [noWs] using hacc
        · exact ih [] rfl w hw2
    · refine ih (c :: acc) ?_ w hw
      simp only [noWs, List.all_cons, Bool.and_eq_true] at hacc ⊢
      constructor
      · simpa using by
          rename_i hns
          simpa using hns
      · simpa [noWs] using hacc

theorem pySplitWs_noWs (s : List Char) : ∀ w ∈ pySplitWs s, noWs w = true :=
  pySplitWsAux_noWs s [] rfl

theorem pyStrip_append_ws (x : List Char) (c : Char) (hc : pyIsSpace c = true) :
    pyStrip (x ++ [c]) = pyStrip x := by
  unfold pyStrip
  rw [List.dropWhile_append]
  by_cases h : (x.dropWhile pyIsSpace).isEmpty
  · rw [List.isEmpty_iff] at h
    rw [h]
    simp [List.dropWhile_cons, hc]
  · have h' : (x.dropWhile pyIsSpace).isEmpty = false := by
      simpa using h
    simp [h', List.reverse_append, List.dropWhile_cons, hc]

theorem wrapWords_lineOk :
    ∀ (ws : List (List Char)) (cur : List Char),
      (∀ w ∈ ws, noWs w = true) → lineOk (pyStrip cur) →
      ∀ l ∈ wrapWords ws cur, lineOk l := by
  intro ws
  induction ws with
  | nil =>
    intro cur _ hcur l hl
    simp only [wrapWords] at hl
    split at hl
    · simp at hl
    · simp only [List.mem_singleton] at hl
      subst hl
      exact hcur
  | cons w ws ih =>
    intro cur hws hcur l hl
    have hw : noWs w = true := hws w (List.mem_cons_self w ws)
    have hws' : ∀ u ∈ ws, noWs u = true := fun u hu => hws u (List.mem_cons_of_mem w hu)
    have hnext : lineOk (pyStrip (w ++ [' '])) := by
      rw [pyStrip_append_ws w ' ' (by decide)]
      exact Or.inr (noWs_of_sublist (pyStrip_sublist w) hw)
    simp only [wrapWords] at hl
    split at hl
    · refine ih _ hws' ?_ l hl
      left
      have hle := pyStrip_length_le (cur ++ w ++ [' '])
      simp only [List.length_append, List.length_singleton] at hle
      omega
    · split at hl
      · exact ih _ hws' hnext l hl
      · rcases List.mem_cons.mp hl with rfl | hl2
        · exact hcur
        · exact ih _ hws' hnext l hl2

theorem bulletLinesOf_lineOk (p : List Char) : ∀ l ∈ bulletLinesOf p, lineOk l := by
  intro l hl
  unfold bulletLinesOf at hl
  split at hl
  · refine wrapWords_lineOk (pySplitWs p) [] (pySplitWs_noWs p) ?_ l hl
    left
    simp [pyStrip]
  · simp only [List.mem_singleton] at hl
    subst hl
    left
    omega

theorem renderedBullets_lineOk (t b : List Char) :
    ∀ l ∈ renderedBullets t b, lineOk l := by
  intro l hl
  unfold renderedBullets at hl
  rcases List.mem_map.mp hl with ⟨m, hm, rfl⟩
  have hm2 : m ∈ bulletPoints t b := List.mem_of_mem_take hm
  unfold bulletPoints at hm2
  rcases List.mem_flatMap.mp hm2 with ⟨p, _, hmp⟩
  exact lineOk_of_sublist (pyStrip_sublist m) (bulletLinesOf_lineOk p m hmp)

theorem renderedBullets_length_le (t b : List Char) :
    (renderedBullets t b).length ≤ 12 := by
  unfold renderedBullets
  simp only [List.length_map, List.length_take]
  omega

theorem nat_lt_div_add_one_mul (a b : Nat) (h : 0 < b) : a < (a / b + 1) * b := by
  have h1 := Nat.div_add_mod a b
  have h2 := Nat.mod_lt a h
  have h3 : (a / b + 1) * b = b * (a / b) + b := by ring
  omega

theorem renderPages_length (gen : Nat → Option (Nat × Nat)) (n : Nat) :
    ∀ (l : List Slide) (i : Nat), (renderPages gen n i l).length = l.length := by
  intro l
  induction l with
  | nil => intro i; rfl
  | cons s rest ih =>
    intro i
    simp [renderPages, ih (i + 1)]

theorem renderPages_getD (gen : Nat → Option (Nat × Nat)) (n : Nat) :
    ∀ (l : List Slide) (i j : Nat) (d : RenderedPage) (ds : Slide), j < l.length →
      (renderPages gen n i l).getD j d = renderPage (gen (i + j)) n (i + j) (l.getD j ds) := by
  intro l
  induction l with
  | nil =>
    intro i j d ds hj
    simp at hj
  | cons s rest ih =>
    intro i j d ds hj
    cases j with
    | zero => simp [renderPages]
    | succ j =>
      simp only [renderPages, List.getD_cons_succ]
      have hj' : j < rest.length := by
        simp only [List.length_cons] at hj
        omega
      rw [ih (i + 1) j d ds hj']
      have he : i + 1 + j = i + (j + 1) := by omega
      rw [he]

/-!
Claim theorems.
-/

/-- C1: for every list of slides of length N passed to
generate_carousel_pdf, the produced document has exactly N pages, the
page at index i is the rendering of slide i (one page per slide, in
input order), and that page carries the page-counter text formed from
i+1, a slash and N. -/
theorem carousel_page_count_and_counters (gen : Nat → Option (Nat × Nat))
    (slides : List Slide) :
    (generate_carousel_pdf gen slides).length = slides.length ∧
    ∀ (i : Nat) (d : RenderedPage) (ds : Slide), i < slides.length →
      (generate_carousel_pdf gen slides).getD i d =
        renderPage (gen i) slides.length i (slides.getD i ds) ∧
      ((generate_carousel_pdf gen slides).getD i d).counter =
        counterText i slides.length := by
  constructor
  · exact renderPages_length gen slides.length slides 0
  · intro i d ds hi
    have h : (generate_carousel_pdf gen slides).getD i d =
        renderPage (gen i) slides.length i (slides.getD i ds) := by
      have h0 := renderPages_getD gen slides.length slides 0 i d ds hi
      rw [Nat.zero_add] at h0
      exact h0
    exact ⟨h, by rw [h]; rfl⟩

/-- Witness for C1 at a concrete one-slide input. -/
theorem carousel_page_count_and_counters_witness :
    (generate_carousel_pdf (fun _ => none) [Slide.mk (some "Hi".toList) none]).length = 1 ∧
    ((generate_carousel_pdf (fun _ => none) [Slide.mk (some "Hi".toList) none]).getD 0
        (renderPage none 0 0 (Slide.mk none none))).counter = "1/1".toList := by
  refine ⟨(carousel_page_count_and_counters (fun _ => none) [Slide.mk (some "Hi".toList) none]).1, ?_⟩
  have h := (carousel_page_count_and_counters (fun _ => none)
      [Slide.mk (some "Hi".toList) none]).2 0 (renderPage none 0 0 (Slide.mk none none))
      (Slide.mk none none) (by decide)
  rw [h.2]
  decide

/-- C4: a slide is rendered as a cover slide exactly when its stripped
content with the Visual directive removed is empty, or the slide is
first in the list; and on a cover slide the rendered title is the
uppercased slide title. -/
theorem cover_slide_characterization (gen : Option (Nat × Nat)) (n idx : Nat) (s : Slide) :
    ((renderPage gen n idx s).isCover = true ↔
      pyStrip (stripVisual (rawContentOf s)) = [] ∨ idx = 0) ∧
    ((renderPage gen n idx s).isCover = true →
      (renderPage gen n idx s).title = pyUpper (slideTitleOf s idx)) := by
  constructor
  · show isCoverSlide s idx = true ↔ _
    simp [isCoverSlide, List.isEmpty_iff]
  · intro hc
    have hc' : isCoverSlide s idx = true := hc
    show renderedTitle s idx = _
    unfold renderedTitle
    rw [if_pos hc']

/-- Witness for C4 at a concrete content-free slide. -/
theorem cover_slide_characterization_witness :
    (renderPage none 3 2 (Slide.mk (some "Hi".toList) none)).isCover = true ∧
    (renderPage none 3 2 (Slide.mk (some "Hi".toList) none)).title =
      pyUpper (slideTitleOf (Slide.mk (some "Hi".toList) none) 2) :=
  ⟨by decide, (cover_slide_characterization none 3 2 (Slide.mk (some "Hi".toList) none)).2
    (by decide)⟩

/-- C5: when the image-generation oracle fails for slide i, the page
for slide i carries the solid placeholder rectangle with the error
caption in the image area, the document still has one page per slide,
and the page for slide i depends on the oracle only through its single
value at i (the generator is consulted once per slide and a failure
never affects other slides). -/
theorem image_failure_placeholder_and_isolation (gen gen2 : Nat → Option (Nat × Nat))
    (slides : List Slide) (i : Nat) (d : RenderedPage) (hi : i < slides.length) :
    (generate_carousel_pdf gen slides).length = slides.length ∧
    (gen i = none →
      ((generate_carousel_pdf gen slides).getD i d).image =
        ImageResult.failed 50 (750 - 380) 500 300 "[Image generation failed]".toList) ∧
    (gen2 i = gen i →
      (generate_carousel_pdf gen2 slides).getD i d =
        (generate_carousel_pdf gen slides).getD i d) := by
  have h1 : (generate_carousel_pdf gen slides).getD i d =
      renderPage (gen i) slides.length i (slides.getD i (Slide.mk none none)) := by
    have h0 := renderPages_getD gen slides.length slides 0 i d (Slide.mk none none) hi
    rw [Nat.zero_add] at h0
    exact h0
  have h2 : (generate_carousel_pdf gen2 slides).getD i d =
      renderPage (gen2 i) slides.length i (slides.getD i (Slide.mk none none)) := by
    have h0 := renderPages_getD gen2 slides.length slides 0 i d (Slide.mk none none) hi
    rw [Nat.zero_add] at h0
    exact h0
  refine ⟨renderPages_length gen slides.length slides 0, ?_, ?_⟩
  · intro hnone
    rw [h1]
    show imageResultOf (isCoverSlide (slides.getD i (Slide.mk none none)) i) (gen i) = _
    rw [hnone]
    rfl
  · intro heq
    rw [h1, h2, heq]

/-- Witness for C5 at a concrete failing oracle. -/
theorem image_failure_placeholder_and_isolation_witness :
    ((generate_carousel_pdf (fun _ => none) [Slide.mk (some "Hi".toList) none]).getD 0
        (renderPage none 0 0 (Slide.mk none none))).image =
      ImageResult.failed 50 (750 - 380) 500 300 "[Image generation failed]".toList :=
  (image_failure_placeholder_and_isolation (fun _ => none) (fun _ => none)
    [Slide.mk (some "Hi".toList) none] 0 (renderPage none 0 0 (Slide.mk none none))
    (by decide)).2.1 rfl


/-- C2: the rendered slide title (after the cover-slide uppercasing) is
drawn at a font size fixed by its character length L: for L over 50 it
is wrapped to exactly two lines at 18pt, the first half of the words on
line one and the rest on line two; for L over 35 one line at 22pt; for
L over 25 one line at 26pt; otherwise one line at 32pt. -/
theorem title_font_size_table (s : Slide) (idx : Nat) :
    (50 < (renderedTitle s idx).length →
      titleFontSize (renderedTitle s idx) = 18 ∧
      titleLinesOf (renderedTitle s idx) =
        [joinSp ((pySplitWs (renderedTitle s idx)).take
            ((pySplitWs (renderedTitle s idx)).length / 2)),
          joinSp ((pySplitWs (renderedTitle s idx)).drop
            ((pySplitWs (renderedTitle s idx)).length / 2))] ∧
      (titleLinesOf (renderedTitle s idx)).length = 2) ∧
    (35 < (renderedTitle s idx).length → (renderedTitle s idx).length ≤ 50 →
      titleFontSize (renderedTitle s idx) = 22 ∧
      titleLinesOf (renderedTitle s idx) = [renderedTitle s idx]) ∧
    (25 < (renderedTitle s idx).length → (renderedTitle s idx).length ≤ 35 →
      titleFontSize (renderedTitle s idx) = 26 ∧
      titleLinesOf (renderedTitle s idx) = [renderedTitle s idx]) ∧
    ((renderedTitle s idx).length ≤ 25 →
      titleFontSize (renderedTitle s idx) = 32 ∧
      titleLinesOf (renderedTitle s idx) = [renderedTitle s idx]) := by
  refine ⟨?_, ?_, ?_, ?_⟩
  · intro h
    unfold titleFontSize titleLinesOf
    rw [if_pos h, if_pos h]
    exact ⟨rfl, rfl, rfl⟩
  · intro h35 h50
    have hn : ¬ 50 < (renderedTitle s idx).length := by omega
    unfold titleFontSize titleLinesOf
    rw [if_neg hn, if_pos h35, if_neg hn]
    exact ⟨rfl, rfl⟩
  · intro h25 h35
    have hn50 : ¬ 50 < (renderedTitle s idx).length := by omega
    have hn35 : ¬ 35 < (renderedTitle s idx).length := by omega
    unfold titleFontSize titleLinesOf
    rw [if_neg hn50, if_neg hn35, if_pos h25, if_neg hn50]
    exact ⟨rfl, rfl⟩
  · intro h25
    have hn50 : ¬ 50 < (renderedTitle s idx).length := by omega
    have hn35 : ¬ 35 < (renderedTitle s idx).length := by omega
    have hn25 : ¬ 25 < (renderedTitle s idx).length := by omega
    unfold titleFontSize titleLinesOf
    rw [if_neg hn50, if_neg hn35, if_neg hn25, if_neg hn50]
    exact ⟨rfl, rfl⟩

/-- Witness for C2 at a 57-character title slide and a short-title
slide (content-free slides, so both titles are uppercased covers). -/
theorem title_font_size_table_witness :
    titleFontSize (renderedTitle (Slide.mk
      (some "this is a very long slide title that keeps on going here".toList) none) 0) = 18 ∧
    (titleLinesOf (renderedTitle (Slide.mk
      (some "this is a very long slide title that keeps on going here".toList) none) 0)).length = 2 ∧
    titleFontSize (renderedTitle (Slide.mk (some "Hi".toList) none) 0) = 32 := by
  have hl := (title_font_size_table (Slide.mk
      (some "this is a very long slide title that keeps on going here".toList) none) 0).1
    (by decide)
  have hs := (title_font_size_table (Slide.mk (some "Hi".toList) none) 0).2.2.2 (by decide)
  exact ⟨hl.1, hl.2.2, hs.1⟩

/-- C3 counterexample: a slide whose body text is a single
46-character word.  The body text is nonempty, yet the rendered bullet
line has 46 characters, contradicting the claim that every rendered
bullet line is at most 45 characters long. -/
theorem bullet_line_length_counterexample :
    cleanBody (renderedTitle (Slide.mk (some ['T']) (some (List.replicate 46 'a'))) 1)
        (rawContentOf (Slide.mk (some ['T']) (some (List.replicate 46 'a')))) ≠ [] ∧
    ((pageBullets (Slide.mk (some ['T']) (some (List.replicate 46 'a'))) 1).getD 0 []).length
      = 46 := by
  decide

/-- C3 amended: for every slide, at most 12 bullet lines are rendered,
every rendered bullet line is at most 45 characters long or is a
single whitespace-free word (words longer than 45 characters are never
broken), and when bullets are present their vertical spacing is the
minimum of 32 and the remaining page height divided by the number of
bullet lines. -/
theorem bullet_layout_amended (s : Slide) (idx : Nat) :
    (pageBullets s idx).length ≤ 12 ∧
    (∀ l ∈ pageBullets s idx, l.length ≤ 45 ∨ noWs l = true) ∧
    (pageBullets s idx ≠ [] →
      pageSpacing s idx = min 32 (availableHeight / (pageBullets s idx).length)) := by
  refine ⟨?_, ?_, ?_⟩
  · unfold pageBullets
    exact renderedBullets_length_le _ _
  · intro l hl
    exact renderedBullets_lineOk _ _ l hl
  · intro hne
    have hpos : (pageBullets s idx).length > 0 := by
      cases hb : pageBullets s idx
      · exact absurd hb hne
      · simp [hb]
    unfold pageSpacing
    rw [if_pos hpos]
    have hmax : max (pageBullets s idx).length 1 = (pageBullets s idx).length := by omega
    rw [hmax]

/-- Witness for C3 at a concrete two-bullet slide. -/
theorem bullet_layout_amended_witness :
    pageSpacing (Slide.mk (some "Hi".toList) (some "One. Two.".toList)) 1 =
      min 32 (availableHeight /
        (pageBullets (Slide.mk (some "Hi".toList) (some "One. Two.".toList)) 1).length) ∧
    (("One".toList).length ≤ 45 ∨ noWs "One".toList = true) := by
  constructor
  · exact (bullet_layout_amended
      (Slide.mk (some "Hi".toList) (some "One. Two.".toList)) 1).2.2 (by decide)
  · exact (bullet_layout_amended
      (Slide.mk (some "Hi".toList) (some "One. Two.".toList)) 1).2.1 "One".toList (by decide)

/-- C7 counterexample: a non-cover slide with the 5-character content
string made of the letters h e l l o and no Visual directive.  The
content is nonempty, so the claim predicts the image prompt is its
first period-delimited sentence, but the code requires more than 10
characters and falls back to the generic professional phrase built
from the title. -/
theorem image_prompt_counterexample :
    findVisual (rawContentOf (Slide.mk (some ['T']) (some "hello".toList))) = none ∧
    rawContentOf (Slide.mk (some ['T']) (some "hello".toList)) ≠ [] ∧
    imagePromptText (rawContentOf (Slide.mk (some ['T']) (some "hello".toList)))
        (renderedTitle (Slide.mk (some ['T']) (some "hello".toList)) 1) 1 =
      "Professional business concept for T".toList ∧
    imagePromptText (rawContentOf (Slide.mk (some ['T']) (some "hello".toList)))
        (renderedTitle (Slide.mk (some ['T']) (some "hello".toList)) 1) 1 ≠
      ((pySplitChar '.' (rawContentOf (Slide.mk (some ['T'])
        (some "hello".toList)))).headD []).take 100 := by
  decide

/-- C7 amended: the image prompt of a slide is, by priority, the
stripped text of the Visual directive when one is present; else the
first period-delimited sentence of the content truncated to 100
characters when the content is longer than 10 characters; else, on the
first slide, the corporate-background phrase built from the rendered
title, and on any other slide the business-concept phrase built from
the rendered title — so every slide gets a prompt. -/
theorem image_prompt_priority (s : Slide) (idx : Nat) :
    (∀ v, findVisual (rawContentOf s) = some v →
      imagePromptText (rawContentOf s) (renderedTitle s idx) idx = pyStrip v) ∧
    (findVisual (rawContentOf s) = none → 10 < (rawContentOf s).length →
      imagePromptText (rawContentOf s) (renderedTitle s idx) idx =
        ((pySplitChar '.' (rawContentOf s)).headD []).take 100) ∧
    (findVisual (rawContentOf s) = none → (rawContentOf s).length ≤ 10 → idx = 0 →
      imagePromptText (rawContentOf s) (renderedTitle s idx) idx =
        "Professional corporate background related to ".toList ++ renderedTitle s idx) ∧
    (findVisual (rawContentOf s) = none → (rawContentOf s).length ≤ 10 → idx ≠ 0 →
      imagePromptText (rawContentOf s) (renderedTitle s idx) idx =
        "Professional business concept for ".toList ++ renderedTitle s idx) := by
  refine ⟨?_, ?_, ?_, ?_⟩
  · intro v hv
    unfold imagePromptText
    rw [hv]
  · intro hn hlen
    have hne : (rawContentOf s).isEmpty = false := by
      cases hr : rawContentOf s
      · rw [hr] at hlen
        simp at hlen
      · simp
    unfold imagePromptText
    rw [hn]
    rw [if_pos]
    simp [hne, hlen]
  · intro hn hlen h0
    unfold imagePromptText
    rw [hn]
    rw [if_neg, if_pos]
    · simp [h0]
    · simp
      omega
  · intro hn hlen h0
    unfold imagePromptText
    rw [hn]
    rw [if_neg, if_neg]
    · simp [h0]
    · simp
      omega

/-- Witness for C7 at a slide with a Visual directive and a slide with
short content. -/
theorem image_prompt_priority_witness :
    imagePromptText (rawContentOf (Slide.mk (some ['T']) (some "(Visual: a chart) x".toList)))
        (renderedTitle (Slide.mk (some ['T']) (some "(Visual: a chart) x".toList)) 1) 1 =
      pyStrip " a chart".toList ∧
    imagePromptText (rawContentOf (Slide.mk (some ['T']) (some "hello".toList)))
        (renderedTitle (Slide.mk (some ['T']) (some "hello".toList)) 1) 1 =
      "Professional business concept for ".toList ++
        renderedTitle (Slide.mk (some ['T']) (some "hello".toList)) 1 := by
  constructor
  · exact (image_prompt_priority
      (Slide.mk (some ['T']) (some "(Visual: a chart) x".toList)) 1).1
      " a chart".toList (by decide)
  · exact (image_prompt_priority (Slide.mk (some ['T']) (some "hello".toList)) 1).2.2.2
      (by decide) (by decide) (by decide)

/-- C8: for every image with positive width and height, the computed
display size fits in the 500-by-300 box, at least one bound is
attained, the aspect ratio is preserved up to integer truncation, and
the image is horizontally centered at 50 plus half the leftover box
width. -/
theorem image_fit_in_box (w h : Nat) (hw : 0 < w) (hh : 0 < h) :
    (fitImage w h).1 ≤ 500 ∧ (fitImage w h).2 ≤ 300 ∧
    ((fitImage w h).1 = 500 ∨ (fitImage w h).2 = 300) ∧
    (((fitImage w h).2 * w ≤ (fitImage w h).1 * h ∧
        (fitImage w h).1 * h < ((fitImage w h).2 + 1) * w) ∨
      ((fitImage w h).1 * h ≤ (fitImage w h).2 * w ∧
        (fitImage w h).2 * w < ((fitImage w h).1 + 1) * h)) ∧
    (∀ cover : Bool, imageResultOf cover (some (w, h)) =
      ImageResult.placed (50 + (500 - (fitImage w h).1) / 2)
        (if cover then 750 - 480 + (300 - (fitImage w h).2) / 2
          else 750 - 380 + (300 - (fitImage w h).2) / 2)
        (fitImage w h).1 (fitImage w h).2) := by
  have hlast : ∀ cover : Bool, imageResultOf cover (some (w, h)) =
      ImageResult.placed (50 + (500 - (fitImage w h).1) / 2)
        (if cover then 750 - 480 + (300 - (fitImage w h).2) / 2
          else 750 - 380 + (300 - (fitImage w h).2) / 2)
        (fitImage w h).1 (fitImage w h).2 := by
    intro cover
    cases cover <;> rfl
  unfold fitImage at hlast ⊢
  by_cases hc : 300 * w > 500 * h
  · rw [if_pos hc] at hlast ⊢
    refine ⟨le_refl 500, ?_, Or.inl rfl, Or.inl ⟨?_, ?_⟩, hlast⟩
    · exact le_of_lt ((Nat.div_lt_iff_lt_mul hw).mpr (by omega))
    · exact Nat.div_mul_le_self (500 * h) w
    · exact nat_lt_div_add_one_mul (500 * h) w hw
  · rw [if_neg hc] at hlast ⊢
    have hle : 300 * w ≤ 500 * h := by omega
    refine ⟨?_, le_refl 300, Or.inr rfl, Or.inr ⟨?_, ?_⟩, hlast⟩
    · calc 300 * w / h ≤ 500 * h / h := Nat.div_le_div_right hle
      _ = 500 := Nat.mul_div_cancel 500 hh
    · exact Nat.div_mul_le_self (300 * w) h
    · exact nat_lt_div_add_one_mul (300 * w) h hh

/-- Witness for C8 at a 1024-by-1024 image. -/
theorem image_fit_in_box_witness :
    (fitImage 1024 1024).1 ≤ 500 ∧ (fitImage 1024 1024).2 = 300 := by
  have h := image_fit_in_box 1024 1024 (by decide) (by decide)
  refine ⟨h.1, ?_⟩
  decide

/-- C6: in the handlers wrapped in the broad catch, any exception the
body raises surfaces as an HTTP 500 whose detail interpolates the
exception text; in particular the 400-level HTTPExceptions raised
inside the generate_post try-block (missing GOOGLE_API_KEY, missing
news_article, unsupported provider) are caught and returned as 500s
whose detail embeds the stringified 400 error. -/
theorem handlers_convert_exceptions_to_500 {α : Type} (key : Bool) (req : PostReq)
    (rest body1 body2 : Except PyExc α) :
    (∀ x, generate_post key req rest = .error x →
      ∃ e, x = .http 500 ("Error generating post: ".toList ++ excStr e)) ∧
    (req.provider = "gemini".toList → key = false →
      generate_post key req rest = .error (.http 500 ("Error generating post: ".toList ++
        excStr (.http 400
          "GOOGLE_API_KEY not configured. Please add it to your .env file".toList)))) ∧
    (req.provider = "gemini".toList → key = true → req.postType = "trending_news".toList →
      req.hasNews = false →
      generate_post key req rest = .error (.http 500 ("Error generating post: ".toList ++
        excStr (.http 400 "news_article is required for trending_news post type".toList)))) ∧
    (req.provider ≠ "gemini".toList →
      generate_post key req rest = .error (.http 500 ("Error generating post: ".toList ++
        excStr (.http 400 ("Provider '".toList ++ req.provider ++
          "' not supported. Currently only 'gemini' is configured.".toList))))) ∧
    (∀ e, body1 = .error e →
      search_news body1 = .error (.http 500 ("News search failed: ".toList ++ excStr e))) ∧
    (∀ e, body2 = .error e →
      generate_carousel body2 =
        .error (.http 500 ("Error generating carousel: ".toList ++ excStr e))) := by
  refine ⟨?_, ?_, ?_, ?_, ?_, ?_⟩
  · intro x hx
    unfold generate_post at hx
    cases hb : generate_post_body key req rest with
    | ok r => rw [hb] at hx; simp at hx
    | error e =>
      rw [hb] at hx
      simp only [Except.error.injEq] at hx
      exact ⟨e, hx.symm⟩
  · intro hprov hkey
    subst hkey
    unfold generate_post generate_post_body
    rw [if_pos hprov]
    rfl
  · intro hprov hkey hpt hnews
    subst hkey
    unfold generate_post generate_post_body
    rw [if_pos hprov]
    simp only [Bool.not_true, Bool.false_eq_true, if_false]
    rw [if_pos (show (decide (req.postType = "trending_news".toList) && !req.hasNews) = true
      by simp [hpt, hnews])]
  · intro hprov
    unfold generate_post generate_post_body
    rw [if_neg hprov]
  · intro e he
    rw [he]
    rfl
  · intro e he
    rw [he]
    rfl

/-- Witness for C6: with no API key configured and the gemini provider,
the missing-key 400 surfaces as a 500 with the stringified 400 in the
detail. -/
theorem handlers_convert_exceptions_to_500_witness :
    generate_post false (PostReq.mk "gemini".toList "standard".toList false)
        (Except.ok ()) =
      Except.error (PyExc.http 500 ("Error generating post: ".toList ++
        excStr (PyExc.http 400
          "GOOGLE_API_KEY not configured. Please add it to your .env file".toList))) :=
  (handlers_convert_exceptions_to_500 false
    (PostReq.mk "gemini".toList "standard".toList false)
    (Except.ok ()) (Except.ok ()) (Except.ok ())).2.1 rfl rfl

/-- Shared upload-or-data-URI pattern of the simple media handlers
(main.py lines 611-624 and the identical blocks): the storage URL
exactly when saving is requested, storage is configured, a post id is
given and the upload succeeds with a nonempty URL; in every other case
the base64 data URI of the generated bytes; either way nonempty. -/
theorem media_url_storage_or_data_uri (save cfg : Bool) (pid : Option (List Char))
    (upload : Except PyExc (List Char)) (data : List Nat) (mime : List Char) :
    (∀ u, save = true → cfg = true → pid.isSome = true → upload = .ok u → u ≠ [] →
      mediaResponseUrl save cfg pid upload data mime = u) ∧
    (save = false ∨ cfg = false ∨ pid = none ∨ (∃ err, upload = .error err) →
      mediaResponseUrl save cfg pid upload data mime = to_data_uri data mime) ∧
    to_data_uri data mime =
      "data:".toList ++ mime ++ ";base64,".toList ++ base64Encode data ∧
    mediaResponseUrl save cfg pid upload data mime ≠ [] := by
  have hdata : to_data_uri data mime ≠ [] := by
    unfold to_data_uri
    simp
  refine ⟨?_, ?_, rfl, ?_⟩
  · intro u hs hc hp hu hne
    subst hs
    subst hc
    rw [show u ≠ [] ↔ u.isEmpty = false by simp [List.isEmpty_iff]] at hne
    unfold mediaResponseUrl
    rw [hu]
    simp [hp, hne]
  · intro hcase
    unfold mediaResponseUrl
    rcases hcase with hs | hc | hp | ⟨err, herr⟩
    · simp [hs]
    · simp [hc]
    · simp [hp]
    · rw [herr]
      rcases save <;> rcases cfg <;> rcases pid <;> simp
  · unfold mediaResponseUrl
    rcases save <;> rcases cfg <;> rcases pid <;> try simp [hdata]
    all_goals rcases upload with e | u
    all_goals try simp [hdata]
    all_goals rcases u with _ | ⟨c, cs⟩ <;> simp [hdata]

/-- C9 counterexample: the generate_carousel endpoint with language
spanish, saving enabled, storage configured, a post id given and a
working upload still responds success with no URL when the Spanish
branch raises, because its exception is swallowed at main.py lines
850-854 — and with this source the branch always raises, since lines
813-817 pass a first_slide_image_url argument that
generate_carousel_pdf does not accept. -/
theorem media_url_spanish_counterexample :
    generate_carousel_media "spanish".toList true true (some "p1".toList)
        (Except.ok [1, 2]) (Except.ok "https://store/en.pdf".toList)
        (Except.error (PyExc.other
          "TypeError: generate_carousel_pdf() got an unexpected keyword argument".toList))
        (Except.ok "https://store/es.pdf".toList) =
      Except.ok (true, none) := rfl

/-- C9 amended: for the media endpoints following the shared pattern,
on success the url field is the external storage URL when saving is
requested, storage is configured, a post id is given and the upload
succeeds (with a nonempty URL); in every other such case it is the
base64 data URI of the generated bytes, hence nonempty — except that
the generate_carousel endpoint with language spanish swallows any
Spanish-branch failure and then responds success with url None, and
otherwise carries the upload-or-data-URI URL of the generated PDF. -/
theorem media_endpoints_url_amended (save cfg : Bool) (pid : Option (List Char))
    (upload : Except PyExc (List Char)) (data : List Nat) (mime : List Char)
    (language : List Char) (englishPdf spanishBody : Except PyExc (List Nat))
    (uploadEn uploadEs : Except PyExc (List Char)) :
    (∀ u, save = true → cfg = true → pid.isSome = true → upload = .ok u → u ≠ [] →
      mediaResponseUrl save cfg pid upload data mime = u) ∧
    (save = false ∨ cfg = false ∨ pid = none ∨ (∃ err, upload = .error err) →
      mediaResponseUrl save cfg pid upload data mime = to_data_uri data mime) ∧
    to_data_uri data mime =
      "data:".toList ++ mime ++ ";base64,".toList ++ base64Encode data ∧
    mediaResponseUrl save cfg pid upload data mime ≠ [] ∧
    (language = "spanish".toList → (∃ e, spanishBody = .error e) →
      generate_carousel_media language save cfg pid englishPdf uploadEn spanishBody uploadEs =
        .ok (true, none)) ∧
    (language = "spanish".toList → ∀ bytesEs, spanishBody = .ok bytesEs →
      generate_carousel_media language save cfg pid englishPdf uploadEn spanishBody uploadEs =
        .ok (true, some (mediaResponseUrl save cfg pid uploadEs bytesEs
          "application/pdf".toList))) ∧
    (carouselLangEnglish language = true → language ≠ "spanish".toList →
      ∀ bytesEn, englishPdf = .ok bytesEn →
      generate_carousel_media language save cfg pid englishPdf uploadEn spanishBody uploadEs =
        .ok (true, some (mediaResponseUrl save cfg pid uploadEn bytesEn
          "application/pdf".toList))) := by
  obtain ⟨h1, h2, h3, h4⟩ := media_url_storage_or_data_uri save cfg pid upload data mime
  refine ⟨h1, h2, h3, h4, ?_, ?_, ?_⟩
  · rintro hlang ⟨e, he⟩
    subst hlang
    unfold generate_carousel_media
    rw [he]
    rfl
  · intro hlang bytesEs he
    subst hlang
    unfold generate_carousel_media
    rw [he]
    rfl
  · intro hEn hneq bytesEn he
    have hb : (language == "spanish".toList) = false := by
      simp only [beq_eq_false_iff_ne]
      exact hneq
    unfold generate_carousel_media
    rw [hEn, he, hb]
    rfl

/-- Witness for C9 amended: a successful upload yields the storage URL
for the shared pattern, and a successful Spanish carousel run yields
the uploaded Spanish PDF URL. -/
theorem media_endpoints_url_amended_witness :
    mediaResponseUrl true true (some "p1".toList) (Except.ok "https://x/y.png".toList)
        [1, 2] "image/png".toList = "https://x/y.png".toList ∧
    generate_carousel_media "spanish".toList true true (some "p1".toList)
        (Except.ok [7]) (Except.ok "https://store/en.pdf".toList) (Except.ok [1, 2])
        (Except.ok "https://store/es.pdf".toList) =
      Except.ok (true, some "https://store/es.pdf".toList) := by
  constructor
  · exact (media_endpoints_url_amended true true (some "p1".toList)
      (Except.ok "https://x/y.png".toList) [1, 2] "image/png".toList "spanish".toList
      (Except.ok [7]) (Except.ok [1, 2]) (Except.ok "https://store/en.pdf".toList)
      (Except.ok "https://store/es.pdf".toList)).1
      "https://x/y.png".toList rfl rfl (by decide) rfl (by decide)
  · have h := (media_endpoints_url_amended true true (some "p1".toList)
      (Except.ok "https://x/y.png".toList) [1, 2] "image/png".toList "spanish".toList
      (Except.ok [7]) (Except.ok [1, 2]) (Except.ok "https://store/en.pdf".toList)
      (Except.ok "https://store/es.pdf".toList)).2.2.2.2.2.1 rfl [1, 2] rfl
    rw [h]
    rfl

theorem pyRound1_bounds (x : ℚ) (h1 : 70 ≤ x) (h2 : x ≤ 95) :
    70 ≤ pyRound1 x ∧ pyRound1 x ≤ 95 := by
  unfold pyRound1 roundHalfEven
  rw [ratFloor_eq_intFloor]
  have hfl : (⌊x * 10⌋ : ℚ) ≤ x * 10 := Int.floor_le _
  have h700 : (700 : ℤ) ≤ ⌊x * 10⌋ := Int.le_floor.mpr (by push_cast; linarith)
  have h700' : (700 : ℚ) ≤ (⌊x * 10⌋ : ℚ) := by exact_mod_cast h700
  have h950 : (⌊x * 10⌋ : ℚ) ≤ 950 := by linarith
  split_ifs with hr1 hr2 hpar
  · exact ⟨by linarith, by linarith⟩
  · have hf : (⌊x * 10⌋ : ℚ) < 950 := by
      push_neg at hr1
      linarith
    have hint : ⌊x * 10⌋ < 950 := by exact_mod_cast hf
    have hle : ((⌊x * 10⌋ : ℤ) : ℚ) + 1 ≤ 950 := by
      have : ⌊x * 10⌋ + 1 ≤ 950 := hint
      exact_mod_cast this
    constructor
    · push_cast
      linarith
    · push_cast
      push_cast at hle
      linarith
  · exact ⟨by linarith, by linarith⟩
  · have hf : (⌊x * 10⌋ : ℚ) < 950 := by
      push_neg at hr1
      linarith
    have hint : ⌊x * 10⌋ < 950 := by exact_mod_cast hf
    have hle : ((⌊x * 10⌋ : ℤ) : ℚ) + 1 ≤ 950 := by
      have : ⌊x * 10⌋ + 1 ≤ 950 := hint
      exact_mod_cast this
    constructor
    · push_cast
      linarith
    · push_cast
      push_cast at hle
      linarith

/-- C10: the voice score of a generated post equals the raw score
min(95, 70 + length/20) rounded to one decimal place, always lies in
the interval from 70 to 95, and depends only on the length of the
content (the score of any content equals the score of a same-length
run of the letter a). -/
theorem voice_score_properties (s : List Char) :
    voice_score s = pyRound1 (min 95 (70 + (s.length : ℚ) / 20)) ∧
    70 ≤ voice_score s ∧ voice_score s ≤ 95 ∧
    voice_score s = voice_score (List.replicate s.length 'a') := by
  have h1 : 70 ≤ voice_score_raw s := by
    unfold voice_score_raw
    refine le_min (by norm_num) ?_
    have h0 : (0 : ℚ) ≤ (s.length : ℚ) / 20 := by positivity
    linarith
  have h2 : voice_score_raw s ≤ 95 := min_le_left _ _
  have hb := pyRound1_bounds (voice_score_raw s) h1 h2
  refine ⟨rfl, hb.1, hb.2, ?_⟩
  unfold voice_score voice_score_raw
  rw [List.length_replicate]
